import Mathlib

/-!
Verification of the LTE link-control driver
(`drivers/lte_link_control/lte_lc.c`).

This file gives a shallow embedding of the parts of the driver that carry
decision logic:

* the PSM timer decoder inside `lte_lc_psm_get` (the `strtoul(..., 2)`
  bit-field parsing against the `t3412_lookup` / `t3324_lookup` tables),
* the registration state machine `w_lte_lc_connect` (modelled as a function
  from an environment of write/wait outcomes to a returned error code and a
  trace of externally visible events),
* the unsolicited-notification handler `at_handler`,
* the `k_sem` signal primitive connecting the two (modelled from the spec,
  since the kernel semaphore implementation is outside this repository).

Machine integers are modelled as `Nat`/`Int` with explicit reductions modulo
`2^32` where the C code computes in `u32_t` / `unsigned long`.
-/

namespace LteLc

/-- Error numbers used by the driver, with the newlib-compatible values of the
target libc.  `eioNum` corresponds to `EIO`, `einvalNum` to `EINVAL`,
`etimedoutNum` to `ETIMEDOUT`; the driver returns their negations. -/
def eioNum : Int := 5

/-- Errno value corresponding to `EINVAL`. -/
def einvalNum : Int := 22

/-- Errno value corresponding to `ETIMEDOUT`. -/
def etimedoutNum : Int := 116

/-- The modulus of `u32_t` / 32-bit `unsigned long` on the target. -/
def u32Mod : Nat := 4294967296

/-- Reinterpret a `u32_t` bit pattern as a C `int` (two's complement). -/
def toInt32 (v : Nat) : Int :=
  if v < 2147483648 then (v : Int) else (v : Int) - (u32Mod : Int)

/-- The characters accepted by C `isspace`, which `strtoul` skips. -/
def isSpaceC (c : Char) : Bool :=
  c == ' ' || c == '\t' || c == '\n' || c == '\x0b' || c == '\x0c' || c == '\r'

/-- Accumulate the longest run of binary digits at the head of `s` onto `acc`,
stopping at the first character that is not `'0'` or `'1'` (the digit-run
phase of `strtoul(s, NULL, 2)`). -/
def binDigits : List Char → Nat → Nat
  | [], acc => acc
  | c :: cs, acc =>
    if c == '0' then binDigits cs (2 * acc)
    else if c == '1' then binDigits cs (2 * acc + 1)
    else acc

/-- `strtoul(s, NULL, 2)` on a 32-bit target: skip leading whitespace, accept
an optional sign (a minus sign negates the unsigned result), then take the
longest run of binary digits; no digits means 0.  The inputs fed to it by the
driver are at most 8 characters, so saturation at `ULONG_MAX` is unreachable
and the value is simply reduced modulo `2^32`. -/
def strtoul2 (s : List Char) : Nat :=
  let s1 := s.dropWhile isSpaceC
  if s1.head? = some '-' then (u32Mod - binDigits s1.tail 0 % u32Mod) % u32Mod
  else if s1.head? = some '+' then binDigits s1.tail 0 % u32Mod
  else binDigits s1 0 % u32Mod

/-- Lookup table for the T3324 timer used for PSM active time (seconds per
unit), from `lte_lc.c` line 34. -/
def t3324_lookup : List Nat := [2, 60, 600, 60, 60, 60, 60, 0]

/-- Lookup table for the T3412 timer used for periodic TAU (seconds per
unit), from `lte_lc.c` lines 39-40. -/
def t3412_lookup : List Nat := [600, 3600, 36000, 2, 30, 60, 1152000, 0]

/-- Decidable equality for `Except`, needed to evaluate decoder results. -/
instance (priority := low) {ε α : Type} [DecidableEq ε] [DecidableEq α] :
    DecidableEq (Except ε α) := fun a b =>
  match a, b with
  | Except.error e, Except.error f =>
    if h : e = f then Decidable.isTrue (by rw [h])
    else Decidable.isFalse (by intro hc; cases hc; exact h rfl)
  | Except.error _, Except.ok _ => Decidable.isFalse (by intro hc; cases hc)
  | Except.ok _, Except.error _ => Decidable.isFalse (by intro hc; cases hc)
  | Except.ok x, Except.ok y =>
    if h : x = y then Decidable.isTrue (by rw [h])
    else Decidable.isFalse (by intro hc; cases hc; exact h rfl)

/-- The timer-field decoding step of `lte_lc_psm_get`, performed once with
`t3412_lookup` (lines 372-383) and once with `t3324_lookup` (lines 395-406):
copy the first three characters into `unit_str`, parse them with
`strtoul(unit_str, NULL, 2)` as the table index, reject an index above the
last table slot with `-EINVAL`, otherwise parse the remaining characters as
the magnitude and produce `timer_unit * timer_value`, or `-1` when the unit
entry is zero.  The multiplication is in `u32_t` and the result is stored
into a C `int`. -/
def decodeTimerField (table : List Nat) (timer_str : List Char) : Except Int Int :=
  let unit_str := timer_str.take 3
  let index := strtoul2 unit_str
  if index > table.length - 1 then
    Except.error (-einvalNum)
  else
    let timer_unit := table.getD index 0
    let timer_value := strtoul2 (timer_str.drop 3)
    Except.ok (if timer_unit ≠ 0 then toInt32 (timer_unit * timer_value % u32Mod) else -1)

/-- Big-endian binary rendering of `v` on exactly `w` characters; used to
state claims about well-formed timer fields (first 3 bits unit, last 5 bits
magnitude). -/
def natToBin : Nat → Nat → List Char
  | 0, _ => []
  | w + 1, v => natToBin w (v / 2) ++ [if v % 2 = 1 then '1' else '0']

/-- An 8-character timer field whose first 3 bits encode `u` and whose last
5 bits encode `m`. -/
def encodeTimerField (u m : Nat) : List Char :=
  natToBin 3 u ++ natToBin 5 m

/-- The ten decimal-digit characters. -/
def digitChars : List Char :=
  ['0', '1', '2', '3', '4', '5', '6', '7', '8', '9']

/-- The six bytes compared by `memcmp(id, "+CEREG", 6)` in `at_handler`. -/
def ceregId6 : List Char := ['+', 'C', 'E', 'R', 'E', 'G']

/-- The signalling decision of `at_handler` (lines 112-136) for a
successfully extracted identifier: `id[16]` is an uninitialized stack buffer
into which `at_params_string_get` writes the `id.length` identifier bytes
without a terminator, so the bytes read by `memcmp(id, "+CEREG", 6)` are the
identifier followed by indeterminate stack residue; the model therefore
takes the residue as an explicit input, and the buffer contents compared are
`(id ++ residue).take 6`.  The handler gives `k_sem_give(&link)` exactly
when the extracted length is positive, the six compared bytes equal
`"+CEREG"`, and the parsed status `val` is 1 or 5.  (A failed extraction,
which leaves `len` at 16 and the whole buffer indeterminate, corresponds to
an arbitrary `id ++ residue` of indeterminate content.) -/
def at_handler_gives (id residue : List Char) (val : Int) : Bool :=
  if 0 < id.length ∧ (id ++ residue).take 6 = ceregId6 then
    if val = 1 ∨ val = 5 then true else false
  else false

/-- Modelled from the spec: the `k_sem` counting-semaphore state.  The kernel
semaphore implementation is not part of this repository; the spec requires
that "signals are coalesced — multiple notifications before a consumer waits
result in at most one pending signal, never more".  `count` is the number of
pending signals and `limit` the cap chosen at initialisation. -/
structure KSem where
  count : Nat
  limit : Nat
deriving DecidableEq

/-- Modelled from the spec: `k_sem_init(&link, 0, 1)` (line 199) creates a
semaphore with `initial` pending signals and cap `limit`. -/
def k_sem_init (initial limit : Nat) : KSem := ⟨initial, limit⟩

/-- Modelled from the spec: `k_sem_give` records one more pending signal but
saturates at the cap, so signals are coalesced. -/
def k_sem_give (s : KSem) : KSem :=
  if s.count < s.limit then ⟨s.count + 1, s.limit⟩ else s

/-- Modelled from the spec: the moment `k_sem_take` consumes a signal — it
succeeds exactly when a signal is pending and consumes one; otherwise the
bounded wait will time out. -/
def k_sem_take_poll (s : KSem) : Bool × KSem :=
  if 0 < s.count then (true, ⟨s.count - 1, s.limit⟩) else (false, s)

/-- Effect of one unsolicited notification on the `link` semaphore — the
notification is a triple of the parsed identifier, the indeterminate buffer
residue behind it, and the parsed status: `at_handler` gives the semaphore
exactly when the notification qualifies. -/
def at_handler_step (s : KSem) (n : List Char × List Char × Int) : KSem :=
  if at_handler_gives n.1 n.2.1 n.2.2 then k_sem_give s else s

/-- The semaphore state after a sequence of unsolicited notifications has
been delivered to `at_handler`, starting from `k_sem_init(&link, 0, 1)`. -/
def processNotifs (ns : List (List Char × List Char × Int)) : KSem :=
  ns.foldl at_handler_step (k_sem_init 0 1)

/-- An operation on the `link` semaphore: a signal from the notification
listener or a consume by the waiter in `w_lte_lc_connect`. -/
inductive SemOp
  | give
  | takePoll
deriving DecidableEq

/-- Apply one semaphore operation. -/
def semStep (s : KSem) : SemOp → KSem
  | SemOp.give => k_sem_give s
  | SemOp.takePoll => (k_sem_take_poll s).2

/-- The AT commands written by `w_lte_lc_connect`:
`nw_mode_preferred` / `nw_mode_fallback` (`AT%XSYSTEMMODE=...`),
`normal` (`AT+CFUN=1`) and `offline` (`AT+CFUN=4`). -/
inductive Cmd
  | modePreferred
  | modeFallback
  | normal
  | offline
deriving DecidableEq

/-- Externally visible events of one `w_lte_lc_connect` call: registering or
clearing the notification handler (`at_cmd_set_notification_handler`), an
`at_cmd_write` of a command together with its transport outcome, and a
`k_sem_take` wait outcome (`true` = signalled, `false` = timed out). -/
inductive Event
  | setHandler (registered : Bool)
  | write (cmd : Cmd) (ok : Bool)
  | takeSem (signaled : Bool)
deriving DecidableEq

/-- Environment of one `w_lte_lc_connect` call: the transport outcome of the
`n`-th `at_cmd_write` (`true` = returned 0) and the outcome of the `n`-th
`k_sem_take` (`true` = signalled before the timeout, `false` = `-EAGAIN`). -/
structure Env where
  write : Nat → Bool
  take : Nat → Bool

/-- The network mode held in `current_network_mode`. -/
inductive NetworkMode
  | preferred
  | fallback
deriving DecidableEq

/-- The mode-selection command sent for a mode. -/
def modeCmd : NetworkMode → Cmd
  | NetworkMode.preferred => Cmd.modePreferred
  | NetworkMode.fallback => Cmd.modeFallback

/-- Result of one iteration of the `do { ... } while (retry)` loop of
`w_lte_lc_connect`: either the loop exits with an error code, or `retry` was
set and the loop repeats in fallback mode.  Both carry the events of the
iteration and the forwarded write/take call counters. -/
inductive IterOut
  | done (err : Int) (w t : Nat) (evs : List Event)
  | retry (w t : Nat) (evs : List Event)
deriving DecidableEq

/-- One iteration of the loop body of `w_lte_lc_connect` (lines 203-237):
write the mode-selection command for the current mode (failure is `-EIO`),
write `normal` (failure is `-EIO`), wait on the `link` semaphore; on timeout,
if the fallback configuration is enabled and the current mode is the
preferred one, write `offline` (failure is `-EIO`) and request a retry in
fallback mode, otherwise exit with `-ETIMEDOUT`. -/
def connectIter (env : Env) (useFallback : Bool) (mode : NetworkMode)
    (w t : Nat) : IterOut :=
  if env.write w = false then
    IterOut.done (-eioNum) (w + 1) t
      [Event.write (modeCmd mode) false]
  else if env.write (w + 1) = false then
    IterOut.done (-eioNum) (w + 2) t
      [Event.write (modeCmd mode) true, Event.write Cmd.normal false]
  else if env.take t = true then
    IterOut.done 0 (w + 2) (t + 1)
      [Event.write (modeCmd mode) true, Event.write Cmd.normal true,
       Event.takeSem true]
  else if useFallback = true ∧ mode = NetworkMode.preferred then
    if env.write (w + 2) = false then
      IterOut.done (-eioNum) (w + 3) (t + 1)
        [Event.write (modeCmd mode) true, Event.write Cmd.normal true,
         Event.takeSem false, Event.write Cmd.offline false]
    else
      IterOut.retry (w + 3) (t + 1)
        [Event.write (modeCmd mode) true, Event.write Cmd.normal true,
         Event.takeSem false, Event.write Cmd.offline true]
  else
    IterOut.done (-etimedoutNum) (w + 2) (t + 1)
      [Event.write (modeCmd mode) true, Event.write Cmd.normal true,
       Event.takeSem false]

/-- The events carried by an iteration result. -/
def iterEvents : IterOut → List Event
  | IterOut.done _ _ _ evs => evs
  | IterOut.retry _ _ evs => evs

/-- `w_lte_lc_connect` (lines 193-244): register `at_handler`, run the loop
starting in preferred mode, and on every exit path clear the notification
handler.  A retry can be requested only from the preferred-mode iteration
(the loop condition sets `retry` only when `current_network_mode` is still
`nw_mode_preferred`), so the loop is its first iteration followed by at most
one fallback iteration; the second match arm for a retry out of the fallback
iteration is unreachable (`connectIter_fallback_ne_retry` below).  The result
is the returned error code and the trace of events. -/
def w_lte_lc_connect (env : Env) (useFallback : Bool) : Int × List Event :=
  match connectIter env useFallback NetworkMode.preferred 0 0 with
  | IterOut.done err _ _ evs =>
    (err, Event.setHandler true :: evs ++ [Event.setHandler false])
  | IterOut.retry w t evs =>
    match connectIter env useFallback NetworkMode.fallback w t with
    | IterOut.done err _ _ evs2 =>
      (err, Event.setHandler true :: (evs ++ evs2) ++ [Event.setHandler false])
    | IterOut.retry _ _ evs2 =>
      (-etimedoutNum,
       Event.setHandler true :: (evs ++ evs2) ++ [Event.setHandler false])

/-- The commands whose write was attempted, in order, within a trace. -/
def writesOf (evs : List Event) : List Cmd :=
  evs.filterMap fun e =>
    match e with
    | Event.write c _ => some c
    | _ => none

/-- All write events in a trace succeeded. -/
def preWritesOk (evs : List Event) : Prop :=
  ∀ c b, Event.write c b ∈ evs → b = true

/-- The notification-handler registration state after replaying a trace from
registration state `h0`. -/
def replayHandler (evs : List Event) (h0 : Bool) : Bool :=
  evs.foldl
    (fun h e =>
      match e with
      | Event.setHandler b => b
      | _ => h) h0

/-- `AT_CEREG_ACTIVE_TIME_INDEX` (line 27). -/
def activeTimeIndex : Nat := 8

/-- `AT_CEREG_TAU_INDEX` (line 28). -/
def tauIndex : Nat := 9

/-- Environment of one `lte_lc_psm_get` call.  The first four fields are the
return codes of `at_cmd_write(AT+CEREG=5, ...)`, `at_cmd_write(AT+CEREG?,
...)`, `at_params_list_init` and `at_parser_max_params_from_str`.  `param`
is modelled from the spec: `at_params_string_get` and the parser live in
this repository outside the analysed source, and the spec says the reply is
"parsed ... into a fixed ordered set of fields" of which field 9 is the TAU
encoding and field 8 the active-time encoding, a malformed or absent field
being "a hard parse error reported to the caller"; so `param i` is either
the extracted field string or the extraction error code. -/
structure PsmEnv where
  set_err : Int
  read_err : Int
  list_init_err : Int
  parse_err : Int
  param : Nat → Except Int (List Char)

/-- `lte_lc_psm_get` (lines 317-414), with the two output pointers modelled
as in/out values: the result is `(err, *tau, *active_time)` given their
values `tau0`, `active0` before the call.  The TAU field (index 9) is
extracted and decoded first and `*tau` is assigned as soon as its decode
succeeds (line 383); only then is the active-time field (index 8) extracted
and decoded, any failure there exiting with the error while `*tau` keeps the
new value and `*active_time` is never written. -/
def lte_lc_psm_get (env : PsmEnv) (tau0 active0 : Int) : Int × Int × Int :=
  if env.set_err ≠ 0 then (env.set_err, tau0, active0)
  else if env.read_err ≠ 0 then (env.read_err, tau0, active0)
  else if env.list_init_err ≠ 0 then (env.list_init_err, tau0, active0)
  else if env.parse_err ≠ 0 then (env.parse_err, tau0, active0)
  else
    match env.param tauIndex with
    | Except.error e => (e, tau0, active0)
    | Except.ok tau_str =>
      match decodeTimerField t3412_lookup tau_str with
      | Except.error e => (e, tau0, active0)
      | Except.ok tau1 =>
        match env.param activeTimeIndex with
        | Except.error e => (e, tau1, active0)
        | Except.ok act_str =>
          match decodeTimerField t3324_lookup act_str with
          | Except.error e => (e, tau1, active0)
          | Except.ok act1 => (0, tau1, act1)

/-- A `lte_lc_psm_get` environment in which every command succeeds, the TAU
field is extracted as `"00000001"`, and the active-time field extraction
fails with a parse error. -/
def psmEnvTauThenFail : PsmEnv :=
  ⟨0, 0, 0, 0, fun n =>
    if n = tauIndex then Except.ok ("00000001".toList)
    else Except.error (-einvalNum)⟩

/-- The binary-digit accumulator is bounded: starting from `acc`, consuming
any `s` yields a value below `(acc + 1) * 2 ^ s.length` (consuming stops at
the first non-binary character, which only lowers the bound). -/
theorem binDigits_lt (s : List Char) (acc : Nat) :
    binDigits s acc < (acc + 1) * 2 ^ s.length := by
  induction s generalizing acc with
  | nil => simp [binDigits]
  | cons c cs ih =>
    have hk : 1 ≤ 2 ^ cs.length := Nat.one_le_two_pow
    simp only [binDigits, List.length_cons, pow_succ]
    by_cases h0 : c == '0'
    · rw [if_pos h0]
      have h := ih (2 * acc)
      nlinarith [h, hk]
    · rw [if_neg h0]
      by_cases h1 : c == '1'
      · rw [if_pos h1]
        have h := ih (2 * acc + 1)
        nlinarith [h, hk]
      · rw [if_neg h1]
        nlinarith [hk]

/-- On a string of decimal digits, `strtoul(s, NULL, 2)` neither skips
whitespace nor consumes a sign, so it is just the binary-digit run. -/
theorem strtoul2_digits (s : List Char) (hd : ∀ c ∈ s, c ∈ digitChars) :
    strtoul2 s = binDigits s 0 % u32Mod := by
  cases s with
  | nil => rfl
  | cons c cs =>
    have hc : c ∈ digitChars := hd c (List.mem_cons_self c cs)
    fin_cases hc <;> simp [strtoul2, isSpaceC]

/-- The unit-selector index parsed from the first three characters of a
digit-only field is below 8. -/
theorem strtoul2_take3_lt (field : List Char)
    (hd : ∀ c ∈ field, c ∈ digitChars) :
    strtoul2 (field.take 3) < 8 := by
  have hd3 : ∀ c ∈ field.take 3, c ∈ digitChars := fun c hc =>
    hd c (List.take_subset 3 field hc)
  rw [strtoul2_digits _ hd3]
  have hlt : binDigits (field.take 3) 0 < 2 ^ (field.take 3).length := by
    have := binDigits_lt (field.take 3) 0
    simpa using this
  have hlen : (field.take 3).length ≤ 3 := by
    simp [List.length_take]
  have h8 : 2 ^ (field.take 3).length ≤ 8 := by
    calc 2 ^ (field.take 3).length ≤ 2 ^ 3 :=
          Nat.pow_le_pow_right (by norm_num) hlen
      _ = 8 := by norm_num
  have := Nat.mod_le (binDigits (field.take 3) 0) u32Mod
  omega

/-- When the parsed unit index is within the table, the decoder returns a
value rather than an error. -/
theorem decode_ok_of_index_le (table : List Nat) (field : List Char)
    (h : ¬ strtoul2 (field.take 3) > table.length - 1) :
    ∃ v, decodeTimerField table field = Except.ok v := by
  simp only [decodeTimerField]
  rw [if_neg h]
  exact ⟨_, rfl⟩

/-- C8: the unit tables bind the values the spec's concrete examples
require — active-time entry 1 is 60, TAU entry 0 is 600, entry 7 is 0 in
both tables — so field `00100101` decodes with the active-time table to 300
seconds, field `00000010` decodes with the TAU table to 1200 seconds, and
field `11100000` decodes with either table to the deactivated sentinel. -/
theorem c8_concrete_decodes :
    t3324_lookup.getD 1 0 = 60 ∧ t3412_lookup.getD 0 0 = 600 ∧
    t3324_lookup.getD 7 0 = 0 ∧ t3412_lookup.getD 7 0 = 0 ∧
    decodeTimerField t3324_lookup ("00100101".toList) = Except.ok 300 ∧
    decodeTimerField t3412_lookup ("00000010".toList) = Except.ok 1200 ∧
    decodeTimerField t3324_lookup ("11100000".toList) = Except.ok (-1) ∧
    decodeTimerField t3412_lookup ("11100000".toList) = Except.ok (-1) := by
  decide

/-- C1: for every unit selector `u ≤ 7` and magnitude `m ≤ 31`, decoding the
8-bit field made of `u`'s three bits followed by `m`'s five bits against a
unit table whose entry for `u` is `s` yields the deactivated sentinel `-1`
when `s = 0` and exactly `s * m` seconds otherwise, for both the TAU table
and the active-time table. -/
theorem c1_decode_timer_correct :
    ∀ u, u < 8 → ∀ m, m < 32 →
      decodeTimerField t3412_lookup (encodeTimerField u m) =
        Except.ok (if t3412_lookup.getD u 0 = 0 then -1
                   else ((t3412_lookup.getD u 0 * m : Nat) : Int)) ∧
      decodeTimerField t3324_lookup (encodeTimerField u m) =
        Except.ok (if t3324_lookup.getD u 0 = 0 then -1
                   else ((t3324_lookup.getD u 0 * m : Nat) : Int)) := by
  decide

/-- Witness for C1 at `u = 1`, `m = 5` (TAU table entry 3600, so 18000). -/
theorem c1_witness :
    (1 : Nat) < 8 ∧ (5 : Nat) < 32 ∧
    decodeTimerField t3412_lookup (encodeTimerField 1 5) =
      Except.ok (if t3412_lookup.getD 1 0 = 0 then -1
                 else ((t3412_lookup.getD 1 0 * 5 : Nat) : Int)) :=
  ⟨by decide, by decide, (c1_decode_timer_correct 1 (by decide) 5 (by decide)).1⟩

/-- C3 counterexample: the field `"22222222"` is malformed (it contains no
binary digit at all), yet the decoder reports no parse error: `strtoul`
silently parses the empty longest-valid prefix as 0 for the unit and the
magnitude, and both tables decode the field to `0` seconds. -/
theorem c3_counterexample :
    decodeTimerField t3412_lookup ("22222222".toList) = Except.ok 0 ∧
    decodeTimerField t3324_lookup ("22222222".toList) = Except.ok 0 := by
  decide

/-- C3 (amended): malformed timer fields are silently coerced rather than
rejected — for every field consisting of decimal digits, of any length
(so including non-binary digits and wrong-length fields), decoding against
either table succeeds with a value obtained from the longest-valid-prefix
binary parse, and no parse error is returned. -/
theorem c3_amended_no_parse_error (field : List Char)
    (hd : ∀ c ∈ field, c ∈ digitChars) :
    (∃ v, decodeTimerField t3412_lookup field = Except.ok v) ∧
    (∃ v, decodeTimerField t3324_lookup field = Except.ok v) := by
  have hlt := strtoul2_take3_lt field hd
  constructor
  · refine decode_ok_of_index_le _ _ ?_
    have : t3412_lookup.length = 8 := by decide
    omega
  · refine decode_ok_of_index_le _ _ ?_
    have : t3324_lookup.length = 8 := by decide
    omega

/-- Witness for the amended C3 at the malformed digit field `"0129"`. -/
theorem c3_witness :
    (∃ v, decodeTimerField t3412_lookup ("0129".toList) = Except.ok v) ∧
    (∃ v, decodeTimerField t3324_lookup ("0129".toList) = Except.ok v) :=
  c3_amended_no_parse_error ("0129".toList) (by decide)

/-- C9: for every well-formed 8-character binary timer field, the unit index
parsed from the first three characters is at most 7, hence below the length
of both lookup tables, so the defensive `index > 7` check never fires and
the decoder returns a value for both tables. -/
theorem c9_unit_index_bounded (field : List Char)
    (hlen : field.length = 8) (hb : ∀ c ∈ field, c = '0' ∨ c = '1') :
    strtoul2 (field.take 3) ≤ 7 ∧
    strtoul2 (field.take 3) < t3412_lookup.length ∧
    strtoul2 (field.take 3) < t3324_lookup.length ∧
    (∃ v, decodeTimerField t3412_lookup field = Except.ok v) ∧
    (∃ v, decodeTimerField t3324_lookup field = Except.ok v) := by
  have hd : ∀ c ∈ field, c ∈ digitChars := by
    intro c hc
    rcases hb c hc with h | h <;> rw [h] <;> decide
  have hlt := strtoul2_take3_lt field hd
  have h12 : t3412_lookup.length = 8 := by decide
  have h24 : t3324_lookup.length = 8 := by decide
  refine ⟨by omega, by omega, by omega, ?_, ?_⟩
  · exact decode_ok_of_index_le _ _ (by omega)
  · exact decode_ok_of_index_le _ _ (by omega)

/-- Witness for C9 at the well-formed field `"10110011"`. -/
theorem c9_witness :
    strtoul2 (("10110011".toList).take 3) ≤ 7 ∧
    strtoul2 (("10110011".toList).take 3) < t3412_lookup.length ∧
    strtoul2 (("10110011".toList).take 3) < t3324_lookup.length ∧
    (∃ v, decodeTimerField t3412_lookup ("10110011".toList) = Except.ok v) ∧
    (∃ v, decodeTimerField t3324_lookup ("10110011".toList) = Except.ok v) :=
  c9_unit_index_bounded ("10110011".toList) (by decide) (by decide)

/-- One semaphore operation preserves `count ≤ limit` and never changes the
limit. -/
theorem semStep_invariant (s : KSem) (op : SemOp) (h : s.count ≤ s.limit) :
    (semStep s op).count ≤ (semStep s op).limit ∧ (semStep s op).limit = s.limit := by
  cases op <;> simp only [semStep, k_sem_give, k_sem_take_poll] <;>
    split <;> simp <;> omega

/-- Folding semaphore operations preserves `count ≤ limit` and the limit. -/
theorem semRun_invariant (ops : List SemOp) :
    ∀ s : KSem, s.count ≤ s.limit →
      (List.foldl semStep s ops).count ≤ (List.foldl semStep s ops).limit ∧
      (List.foldl semStep s ops).limit = s.limit := by
  induction ops with
  | nil => exact fun s h => ⟨h, rfl⟩
  | cons op rest ih =>
    intro s h
    have hs := semStep_invariant s op h
    have := ih (semStep s op) hs.1
    exact ⟨this.1, this.2.trans hs.2⟩

/-- C7: the wait-signal primitive connecting `at_handler` to
`w_lte_lc_connect` coalesces signals — starting from
`k_sem_init(&link, 0, 1)`, after any sequence of give and take operations at
most one signal is pending. -/
theorem c7_signals_coalesced (ops : List SemOp) :
    (List.foldl semStep (k_sem_init 0 1) ops).count ≤ 1 := by
  have h := semRun_invariant ops (k_sem_init 0 1) (by decide)
  have hl : (List.foldl semStep (k_sem_init 0 1) ops).limit = 1 := h.2
  omega

/-- C4 counterexample: the notification with identifier token `"+CEREGX"` —
which is not the registration-status identifier `"+CEREG"` — and status 1
does signal the waiter, because `at_handler` compares only the first six
bytes of the identifier (here all six lie in the identifier itself, so the
outcome does not depend on the nine residue bytes). -/
theorem c4_counterexample :
    at_handler_gives ("+CEREGX".toList) ("ZZZZZZZZZ".toList) 1 = true ∧
    "+CEREGX".toList ≠ ceregId6 := by
  decide

/-- The handler never signals — whatever the indeterminate residue bytes
hold — when the extracted identifier is empty, or some identifier byte among
the first six differs from `"+CEREG"` (its first `min 6 len` bytes are not a
prefix of `"+CEREG"`), or the status is neither 1 nor 5. -/
theorem at_handler_gives_false (id residue : List Char) (val : Int)
    (h : id.length = 0 ∨ ¬ id.take 6 <+: ceregId6 ∨ (val ≠ 1 ∧ val ≠ 5)) :
    at_handler_gives id residue val = false := by
  unfold at_handler_gives
  rcases h with h | h | h
  · have hn : ¬ (0 < id.length ∧ (id ++ residue).take 6 = ceregId6) := by
      intro hc
      exact absurd hc.1 (by omega)
    rw [if_neg hn]
  · have hn : ¬ (0 < id.length ∧ (id ++ residue).take 6 = ceregId6) := by
      intro hc
      apply h
      have h6 := hc.2
      rw [List.take_append_eq_append_take] at h6
      exact ⟨List.take (6 - id.length) residue, h6⟩
    rw [if_neg hn]
  · split_ifs with h1 h2
    · rcases h2 with h2 | h2
      · exact absurd h2 h.1
      · exact absurd h2 h.2
    · rfl
    · rfl

/-- Delivering only notifications that do not qualify leaves the semaphore
untouched. -/
theorem processNotifs_no_gives (ns : List (List Char × List Char × Int)) :
    ∀ s : KSem, (∀ p ∈ ns, at_handler_gives p.1 p.2.1 p.2.2 = false) →
      List.foldl at_handler_step s ns = s := by
  induction ns with
  | nil => exact fun s _ => rfl
  | cons n rest ih =>
    intro s h
    have hn : at_handler_gives n.1 n.2.1 n.2.2 = false :=
      h n (List.mem_cons_self n rest)
    have hstep : at_handler_step s n = s := by
      simp [at_handler_step, hn]
    rw [List.foldl_cons, hstep]
    exact ih s fun p hp => h p (List.mem_cons_of_mem n hp)

/-- C4 (amended): every unsolicited notification whose signalling decision
the program determines against signalling — the extracted identifier is
empty, or one of its bytes among the first six differs from the
corresponding byte of `"+CEREG"`, or the status parameter is neither 1 nor
5 — never signals the waiter, whatever the indeterminate residue in the
`id[16]` buffer holds: after any sequence of such notifications the
semaphore has no pending signal and the waiter's take still times out.
(For a nonempty identifier of fewer than six bytes that is a prefix of
`"+CEREG"`, or a failed extraction, the `memcmp` reads uninitialized bytes
and the outcome is not determined.) -/
theorem c4_amended_nonqualifying_ignored (ns : List (List Char × List Char × Int))
    (h : ∀ p ∈ ns,
      p.1.length = 0 ∨ ¬ p.1.take 6 <+: ceregId6 ∨ (p.2.2 ≠ 1 ∧ p.2.2 ≠ 5)) :
    (processNotifs ns).count = 0 ∧
    (k_sem_take_poll (processNotifs ns)).1 = false := by
  have hng : ∀ p ∈ ns, at_handler_gives p.1 p.2.1 p.2.2 = false := fun p hp =>
    at_handler_gives_false p.1 p.2.1 p.2.2 (h p hp)
  unfold processNotifs
  rw [processNotifs_no_gives ns (k_sem_init 0 1) hng]
  exact ⟨rfl, rfl⟩

/-- Witness for the amended C4: a wrong identifier (`"+CREG"`, differing
from `"+CEREG"` at its third byte) with a registered status and the right
identifier with an unregistered status are both ignored, with arbitrary
residue bytes filling the 16-byte buffer. -/
theorem c4_witness :
    (processNotifs
      [("+CREG".toList, "ZZZZZZZZZZZ".toList, 1),
       ("+CEREG".toList, "YYYYYYYYYY".toList, 3)]).count = 0 ∧
    (k_sem_take_poll
      (processNotifs
        [("+CREG".toList, "ZZZZZZZZZZZ".toList, 1),
         ("+CEREG".toList, "YYYYYYYYYY".toList, 3)])).1 = false :=
  c4_amended_nonqualifying_ignored
    [("+CREG".toList, "ZZZZZZZZZZZ".toList, 1),
     ("+CEREG".toList, "YYYYYYYYYY".toList, 3)] (by decide)

/-- A fallback-mode iteration of the connect loop never requests a retry:
the loop's retry condition requires the current mode to still be the
preferred one. -/
theorem connectIter_fallback_ne_retry (env : Env) (fb : Bool) (w t w' t' : Nat)
    (evs : List Event) :
    connectIter env fb NetworkMode.fallback w t ≠ IterOut.retry w' t' evs := by
  unfold connectIter
  split_ifs with h1 h2 h3 h4 h5 <;> simp_all

/-- The event list of a retry result: the loop body wrote the mode command
and `normal` successfully, timed out, and wrote `offline` successfully — and
the mode was still the preferred one. -/
theorem connectIter_retry_shape (env : Env) (fb : Bool) (mode : NetworkMode)
    (w t w' t' : Nat) (evs : List Event)
    (h : connectIter env fb mode w t = IterOut.retry w' t' evs) :
    evs = [Event.write (modeCmd mode) true, Event.write Cmd.normal true,
           Event.takeSem false, Event.write Cmd.offline true] ∧
    mode = NetworkMode.preferred := by
  unfold connectIter at h
  split_ifs at h with h1 h2 h3 h4 h5 <;> simp_all

/-- When an iteration exits with `-EIO`, its event list is a run of
successful writes (and possibly a timed-out wait) ending at the single
failed write. -/
theorem connectIter_eio_shape (env : Env) (fb : Bool) (mode : NetworkMode)
    (w t w' t' : Nat) (err : Int) (evs : List Event)
    (h : connectIter env fb mode w t = IterOut.done err w' t' evs)
    (he : err = -eioNum) :
    ∃ pre c, evs = pre ++ [Event.write c false] ∧ preWritesOk pre := by
  unfold connectIter at h
  split_ifs at h with h1 h2 h3 h4 h5 <;> cases h
  all_goals
    first
    | exact absurd he (by decide)
    | exact ⟨[], modeCmd mode, rfl, fun c b hb => by simp at hb⟩
    | (refine ⟨[Event.write (modeCmd mode) true], Cmd.normal, rfl, ?_⟩
       intro c b hb
       simp at hb
       exact hb.2)
    | (refine ⟨[Event.write (modeCmd mode) true, Event.write Cmd.normal true,
               Event.takeSem false], Cmd.offline, rfl, ?_⟩
       intro c b hb
       simp at hb
       rcases hb with ⟨-, rfl⟩ | ⟨-, rfl⟩ <;> rfl)

/-- Appending preserves `preWritesOk`. -/
theorem preWritesOk_append (l1 l2 : List Event)
    (h1 : preWritesOk l1) (h2 : preWritesOk l2) : preWritesOk (l1 ++ l2) := by
  intro c b hb
  rcases List.mem_append.1 hb with hm | hm
  · exact h1 c b hm
  · exact h2 c b hm

/-- A `setHandler` event preserves `preWritesOk`. -/
theorem preWritesOk_cons_setHandler (b : Bool) (l : List Event)
    (h : preWritesOk l) : preWritesOk (Event.setHandler b :: l) := by
  intro c bb hb
  rcases List.mem_cons.1 hb with h1 | h1
  · simp at h1
  · exact h c bb h1

/-- C5: whenever `w_lte_lc_connect` returns `-EIO`, the failed
`at_cmd_write` is the last command event of the call — every earlier write
succeeded (so the failed write was not a retry of anything) and nothing was
sent after the failure; the call only unregisters the handler and returns. -/
theorem c5_write_failure_fatal (env : Env) (fb : Bool)
    (h : (w_lte_lc_connect env fb).1 = -eioNum) :
    ∃ pre c,
      (w_lte_lc_connect env fb).2 =
        pre ++ [Event.write c false, Event.setHandler false] ∧
      preWritesOk pre := by
  unfold w_lte_lc_connect at h ⊢
  rcases hp : connectIter env fb NetworkMode.preferred 0 0 with
    ⟨err, w', t', evs⟩ | ⟨w', t', evs⟩
  · rw [hp] at h
    dsimp only at h ⊢
    obtain ⟨pre, c, hevs, hok⟩ :=
      connectIter_eio_shape env fb NetworkMode.preferred 0 0 w' t' err evs hp h
    subst hevs
    refine ⟨Event.setHandler true :: pre, c, by simp, ?_⟩
    exact preWritesOk_cons_setHandler true pre hok
  · rw [hp] at h
    dsimp only at h ⊢
    have hretry := connectIter_retry_shape env fb NetworkMode.preferred 0 0 w' t' evs hp
    rcases hq : connectIter env fb NetworkMode.fallback w' t' with
      ⟨err2, w2, t2, evs2⟩ | ⟨w2, t2, evs2⟩
    · rw [hq] at h
      dsimp only at h ⊢
      obtain ⟨pre2, c, hevs2, hok2⟩ :=
        connectIter_eio_shape env fb NetworkMode.fallback w' t' w2 t2 err2 evs2 hq h
      subst hevs2
      refine ⟨Event.setHandler true :: (evs ++ pre2), c, by simp, ?_⟩
      refine preWritesOk_cons_setHandler true _ (preWritesOk_append _ _ ?_ hok2)
      rw [hretry.1]
      intro c0 b hb
      simp at hb
      rcases hb with ⟨-, rfl⟩ | ⟨-, rfl⟩ | ⟨-, rfl⟩ <;> rfl
    · exact absurd hq (connectIter_fallback_ne_retry env fb w' t' w2 t2 evs2)

/-- Witness for C5: with every transport write failing, the call fails on
the very first mode-selection write and stops. -/
theorem c5_witness :
    ∃ pre c,
      (w_lte_lc_connect (Env.mk (fun _ => false) (fun _ => false)) true).2 =
        pre ++ [Event.write c false, Event.setHandler false] ∧
      preWritesOk pre :=
  c5_write_failure_fatal (Env.mk (fun _ => false) (fun _ => false)) true rfl

/-- C6: on every exit path of `w_lte_lc_connect` — success, transport
failure, or exhausted retries — the notification handler registered at the
start of the call has been cleared by the time the call returns. -/
theorem c6_handler_unregistered (env : Env) (fb : Bool) (h0 : Bool) :
    replayHandler (w_lte_lc_connect env fb).2 h0 = false := by
  unfold w_lte_lc_connect
  rcases hp : connectIter env fb NetworkMode.preferred 0 0 with
    ⟨err, w', t', evs⟩ | ⟨w', t', evs⟩
  · simp [replayHandler, List.foldl_append]
  · dsimp only
    rcases hq : connectIter env fb NetworkMode.fallback w' t' with
      ⟨err2, w2, t2, evs2⟩ | ⟨w2, t2, evs2⟩ <;>
      simp [replayHandler, List.foldl_append]

/-- `writesOf` distributes over append. -/
theorem writesOf_append (l1 l2 : List Event) :
    writesOf (l1 ++ l2) = writesOf l1 ++ writesOf l2 := by
  simp [writesOf]

/-- A `setHandler` event contributes no command. -/
theorem writesOf_setHandler_cons (b : Bool) (l : List Event) :
    writesOf (Event.setHandler b :: l) = writesOf l := by
  simp [writesOf]

/-- The empty trace has no commands. -/
theorem writesOf_nil : writesOf [] = [] := rfl

/-- Any preferred-mode iteration writes `offline` at most once and the
fallback mode command never. -/
theorem connectIter_counts_preferred (env : Env) (fb : Bool) (w t : Nat) :
    (writesOf (iterEvents (connectIter env fb NetworkMode.preferred w t))).count
        Cmd.offline ≤ 1 ∧
    (writesOf (iterEvents (connectIter env fb NetworkMode.preferred w t))).count
        Cmd.modeFallback = 0 := by
  unfold connectIter
  split_ifs <;> simp_all [iterEvents, writesOf, modeCmd]

/-- Any fallback-mode iteration never writes `offline` and writes the
fallback mode command at most once. -/
theorem connectIter_counts_fallback (env : Env) (fb : Bool) (w t : Nat) :
    (writesOf (iterEvents (connectIter env fb NetworkMode.fallback w t))).count
        Cmd.offline = 0 ∧
    (writesOf (iterEvents (connectIter env fb NetworkMode.fallback w t))).count
        Cmd.modeFallback ≤ 1 := by
  unfold connectIter
  split_ifs <;> simp_all [iterEvents, writesOf, modeCmd]

/-- Every `w_lte_lc_connect` call sends `offline` at most once and the
fallback mode-selection command at most once. -/
theorem connect_counts (env : Env) (fb : Bool) :
    (writesOf (w_lte_lc_connect env fb).2).count Cmd.offline ≤ 1 ∧
    (writesOf (w_lte_lc_connect env fb).2).count Cmd.modeFallback ≤ 1 := by
  unfold w_lte_lc_connect
  rcases hp : connectIter env fb NetworkMode.preferred 0 0 with
    ⟨err, w', t', evs⟩ | ⟨w', t', evs⟩
  · have hc := connectIter_counts_preferred env fb 0 0
    rw [hp] at hc
    dsimp only [iterEvents] at hc
    obtain ⟨hc1, hc2⟩ := hc
    dsimp only
    simp only [writesOf_setHandler_cons, writesOf_append, writesOf_nil,
      List.append_nil, List.count_append]
    omega
  · have hc := connectIter_counts_preferred env fb 0 0
    rw [hp] at hc
    dsimp only [iterEvents] at hc
    obtain ⟨hc1, hc2⟩ := hc
    dsimp only
    rcases hq : connectIter env fb NetworkMode.fallback w' t' with
      ⟨err2, w2, t2, evs2⟩ | ⟨w2, t2, evs2⟩ <;>
    · have hcf := connectIter_counts_fallback env fb w' t'
      rw [hq] at hcf
      dsimp only [iterEvents] at hcf
      obtain ⟨hcf1, hcf2⟩ := hcf
      dsimp only
      simp only [writesOf_setHandler_cons, writesOf_append, writesOf_nil,
        List.append_nil, List.count_append]
      omega

/-- C2: with fallback retry enabled and all transport writes succeeding, a
timeout of the preferred-mode wait causes exactly one `offline` write
followed by exactly one fallback mode-selection write, and a timeout of the
fallback-mode wait makes the call return `-ETIMEDOUT` with nothing further
sent; moreover, for every environment, `offline` and the fallback mode
command are each sent at most once per call. -/
theorem c2_fallback_exactly_once (env : Env)
    (hw : ∀ n, env.write n = true)
    (h0 : env.take 0 = false) (h1 : env.take 1 = false) :
    w_lte_lc_connect env true =
      (-etimedoutNum,
       [Event.setHandler true,
        Event.write Cmd.modePreferred true, Event.write Cmd.normal true,
        Event.takeSem false, Event.write Cmd.offline true,
        Event.write Cmd.modeFallback true, Event.write Cmd.normal true,
        Event.takeSem false, Event.setHandler false]) ∧
    ∀ env' fb,
      (writesOf (w_lte_lc_connect env' fb).2).count Cmd.offline ≤ 1 ∧
      (writesOf (w_lte_lc_connect env' fb).2).count Cmd.modeFallback ≤ 1 := by
  refine ⟨?_, fun env' fb => connect_counts env' fb⟩
  unfold w_lte_lc_connect connectIter
  simp [hw 0, hw 1, hw 2, hw 3, hw 4, h0, h1, modeCmd]

/-- Witness for C2 in the environment where every write succeeds and no
registration notification ever arrives. -/
theorem c2_witness :
    w_lte_lc_connect (Env.mk (fun _ => true) (fun _ => false)) true =
      (-etimedoutNum,
       [Event.setHandler true,
        Event.write Cmd.modePreferred true, Event.write Cmd.normal true,
        Event.takeSem false, Event.write Cmd.offline true,
        Event.write Cmd.modeFallback true, Event.write Cmd.normal true,
        Event.takeSem false, Event.setHandler false]) :=
  (c2_fallback_exactly_once (Env.mk (fun _ => true) (fun _ => false))
    (fun _ => rfl) rfl rfl).1

/-- C10: `lte_lc_psm_get` is not atomic in its outputs on error — when the
TAU field decodes (here `"00000001"`, 600 seconds) but the active-time field
then fails to be extracted, the call returns the error code while the `tau`
output has already been overwritten with the decoded value and the
`active_time` output keeps its prior value. -/
theorem c10_psm_get_not_atomic (tau0 active0 : Int) :
    lte_lc_psm_get psmEnvTauThenFail tau0 active0 = (-einvalNum, 600, active0) ∧
    -einvalNum ≠ (0 : Int) := by
  exact ⟨rfl, by decide⟩

end LteLc
